import Mathlib

/-!
Shallow embedding of the block-synchronization core of the Manan note-taking
client.  The definitions translate, line by line, the reconciliation code of
the BlockNote editor component (src/unnamed/part_001: `debounce`,
`calculatePosition`, `isBlockOnServer`, `isServerGeneratedId`,
`isConfirmedServerBlock`, `saveChanges`, the keyboard-listener effect cleanup)
and the API hooks module (src/unnamed/part_010: `mapBlockNoteTypeToAPI`,
`mapAPITypeToBlockNote`, `hasBlockChanged`, `useBlocks`, `useCreateBlock`,
`useUpdateBlock`, `useDeleteBlock`).

Modelling conventions:
* `content` and `properties`/`props` payloads are modelled by their JSON
  serialization (a `String`); the source compares them only through
  `JSON.stringify` equality, which is string equality of the serialization.
* positions are modelled as `Int`; every position the allocator writes is an
  integer (`Math.floor` of an integer midpoint), and `Math.floor((p+q)/2)` on
  integers is exactly `Int.fdiv (p+q) 2`.
* each asynchronous store call (`mutateAsync`) is a synchronous call whose
  success is decided by an oracle `ok : Nat → Bool` indexed by the sequence
  number of the issued call; the per-item `try/catch` of the source means a
  failed call only skips that item's local effects.
* the store itself keeps API-vocabulary types; the React-Query cache (what the
  component sees as `serverBlocks`) is the store mapped through
  `mapAPITypeToBlockNote`, exactly as `useBlocks` / the mutation `onSuccess`
  handlers build it.
-/

namespace BlockSync

/-- Save status of the editor component (src/unnamed/part_001 line 173):
`useState<"idle" | "saving" | "saved" | "error">`. -/
inductive SaveStatus where
  | idle
  | saving
  | saved
  | error
  deriving DecidableEq, Repr

/-- One node of the in-memory editor document, as consumed by `saveChanges`
(src/unnamed/part_001): the fields it reads are `id`, `type`, `content` and
`props`.  `content`/`props` are carried as their JSON serialization. -/
structure EditorBlock where
  id : String
  type : String
  content : String
  props : String
  deriving DecidableEq, Repr

/-- One row of the block store / one entry of the React-Query `blocks` cache
(src/unnamed/part_010: fields `id`, `type`, `content`, `properties`,
`position`).  `position` is optional (`block.position !== undefined` is
checked before seeding the position map). -/
structure ServerBlock where
  id : String
  type : String
  content : String
  properties : String
  position : Option Int
  deriving DecidableEq, Repr

/-! ### String predicates (src/unnamed/part_001 lines 572-584) -/

/-- `a.isPrefixOf b` on character lists; JS `String.prototype.startsWith`. -/
def charsStart : List Char → List Char → Bool
  | [], _ => true
  | _ :: _, [] => false
  | a :: as, b :: bs => a == b && charsStart as bs

/-- substring containment on character lists; JS `String.prototype.includes`. -/
def charsSub (needle : List Char) : List Char → Bool
  | [] => needle.isEmpty
  | h :: t => charsStart needle (h :: t) || charsSub needle t

/-- JS `id.startsWith(pre)`. -/
def strStartsWith (s pre : String) : Bool := charsStart pre.data s.data

/-- JS `id.includes(sub)`. -/
def strContains (s sub : String) : Bool := charsSub sub.data s.data

/-- one hexadecimal digit, case insensitive (`[0-9a-f]` with the `i` flag). -/
def isHexChar (c : Char) : Bool :=
  c.isDigit || (decide (97 ≤ c.toNat) && decide (c.toNat ≤ 102)) ||
    (decide (65 ≤ c.toNat) && decide (c.toNat ≤ 70))

/-- the UUID test `/^[0-9a-f]{8}-[0-9a-f]{4}-[0-9a-f]{4}-[0-9a-f]{4}-[0-9a-f]{12}$/i`:
36 characters, dashes at offsets 8, 13, 18, 23, hex digits elsewhere. -/
def isUUIDFormat (id : String) : Bool :=
  id.data.length == 36 &&
    (id.data.enum.all fun p =>
      if p.1 == 8 || p.1 == 13 || p.1 == 18 || p.1 == 23 then p.2 == '-'
      else isHexChar p.2)

/-- the MongoDB ObjectId test `/^[0-9a-f]{24}$/i`. -/
def isHex24 (id : String) : Bool :=
  id.data.length == 24 && id.data.all isHexChar

/-- the numeric-id test `/^\d+$/i`: nonempty, all decimal digits. -/
def isAllDigits (id : String) : Bool :=
  !id.data.isEmpty && id.data.all Char.isDigit

/-- src/unnamed/part_001 lines 572-584: heuristic deciding whether an id looks
like a real store-assigned id (not a placeholder, not client-temporary, and of
UUID / ObjectId / numeric / generic-long shape). -/
def isServerGeneratedId (id : String) : Bool :=
  let isNotPlaceholder :=
    !(id == "loading-paragraph") && !(id == "default-paragraph") &&
      !(id == "error-fallback")
  let isNotTempId := !(strStartsWith id "temp-") && !(strStartsWith id "new-")
  let isNotClientGenerated := !(strContains id "client-") && !(strContains id "local-")
  let looksLikeServerId :=
    isUUIDFormat id || isHex24 id || isAllDigits id ||
      (decide (10 < id.data.length) && !(strContains id "-temp"))
  isNotPlaceholder && isNotTempId && isNotClientGenerated && looksLikeServerId

/-! ### Block type mapper (src/unnamed/part_010 lines 103-144) -/

/-- the `BLOCKNOTE_TO_API_TYPE_MAP` record, src/unnamed/part_010 lines 103-118. -/
def BLOCKNOTE_TO_API_TYPE_MAP : List (String × String) :=
  [("paragraph", "TEXT"), ("heading", "HEADING"),
   ("bulletListItem", "BULLETED_LIST"), ("numberedListItem", "NUMBERED_LIST"),
   ("checkListItem", "CHECKLIST"), ("table", "TABLE"), ("image", "IMAGE"),
   ("video", "EMBED"), ("audio", "EMBED"), ("file", "FILE"),
   ("codeBlock", "CODE"), ("divider", "DIVIDER"), ("quote", "QUOTE"),
   ("callout", "CALL_OUT")]

/-- the `API_TO_BLOCKNOTE_TYPE_MAP` record, src/unnamed/part_010 lines 120-135. -/
def API_TO_BLOCKNOTE_TYPE_MAP : List (String × String) :=
  [("TEXT", "paragraph"), ("HEADING", "heading"),
   ("BULLETED_LIST", "bulletListItem"), ("NUMBERED_LIST", "numberedListItem"),
   ("CHECKLIST", "checkListItem"), ("TODO", "checkListItem"),
   ("TABLE", "table"), ("IMAGE", "image"), ("EMBED", "video"),
   ("FILE", "file"), ("CODE", "codeBlock"), ("DIVIDER", "divider"),
   ("QUOTE", "quote"), ("CALL_OUT", "callout")]

/-- src/unnamed/part_010 lines 138-140: record lookup with default `'TEXT'`. -/
def mapBlockNoteTypeToAPI (blockNoteType : String) : String :=
  (BLOCKNOTE_TO_API_TYPE_MAP.lookup blockNoteType).getD "TEXT"

/-- src/unnamed/part_010 lines 142-144: record lookup with default `'paragraph'`. -/
def mapAPITypeToBlockNote (apiType : String) : String :=
  (API_TO_BLOCKNOTE_TYPE_MAP.lookup apiType).getD "paragraph"

/-- the list of editor-side (BlockNote) types, the keys of the forward map. -/
def editorTypeKeys : List String := BLOCKNOTE_TO_API_TYPE_MAP.map Prod.fst

/-- the list of store-side (API) types, the keys of the reverse map. -/
def apiTypeKeys : List String := API_TO_BLOCKNOTE_TYPE_MAP.map Prod.fst

/-- src/unnamed/part_010 lines 147-153: a block "has changed" when the
serialized contents differ, the serialized properties differ, or the cached
type differs from the API mapping of the editor type. -/
def hasBlockChanged (existingBlock : ServerBlock) (newBlock : EditorBlock) : Bool :=
  !(existingBlock.content == newBlock.content) ||
    !(existingBlock.properties == newBlock.props) ||
    !(existingBlock.type == mapBlockNoteTypeToAPI newBlock.type)

/-! ### Position allocator (src/unnamed/part_001 lines 530-561)

The `existingPositions` JS `Map` is modelled as an association list whose
`lookup` finds the most recent `set` (new entries are consed in front). -/

/-- first block of the given list whose id is resolved in the map; the
backward and forward scans of `calculatePosition` are both instances. -/
def firstResolved (m : List (String × Int)) : List EditorBlock → Option Int
  | [] => none
  | b :: rest =>
    match m.lookup b.id with
    | some p => some p
    | none => firstResolved m rest

/-- the backward scan, lines 537-545: nearest earlier resolved position,
defaulting to 0 (`let prevPosition = 0`). -/
def prevResolved (editorBlocks : List EditorBlock) (blockIndex : Nat)
    (m : List (String × Int)) : Int :=
  (firstResolved m ((editorBlocks.take blockIndex).reverse)).getD 0

/-- the forward scan, lines 547-555: nearest later resolved position,
defaulting to `prevPosition + 2000`. -/
def nextResolved (editorBlocks : List EditorBlock) (blockIndex : Nat)
    (m : List (String × Int)) : Int :=
  (firstResolved m (editorBlocks.drop (blockIndex + 1))).getD
    (prevResolved editorBlocks blockIndex m + 2000)

/-- src/unnamed/part_001 lines 530-561: index 0 gets the base value 1000;
any other index gets `Math.floor((prevPosition + nextPosition) / 2)`. -/
def calculatePosition (editorBlocks : List EditorBlock) (blockIndex : Nat)
    (existingPositions : List (String × Int)) : Int :=
  if blockIndex = 0 then 1000
  else
    Int.fdiv
      (prevResolved editorBlocks blockIndex existingPositions +
        nextResolved editorBlocks blockIndex existingPositions) 2

/-! ### Classifier predicates (src/unnamed/part_001 lines 563-601) -/

/-- lines 564-569: the id occurs in the last-known server block list. -/
def isBlockOnServer (serverBlocks : List ServerBlock) (id : String) : Bool :=
  serverBlocks.any fun b => b.id == id

/-- lines 587-601: confirmed = on the server list and of server-generated shape. -/
def isConfirmedServerBlock (serverBlocks : List ServerBlock) (id : String) : Bool :=
  isBlockOnServer serverBlocks id && isServerGeneratedId id

/-! ### Reconciliation engine (src/unnamed/part_001 lines 604-765) -/

/-- one store call issued by `saveChanges`: `deleteBlockMutation.mutateAsync`
(carries the block id), `createBlockMutation.mutateAsync` (carries the page
payload; `clientId` records which editor node it came from — the id itself is
NOT part of the request body, the store assigns a fresh one), or
`updateBlockMutation.mutateAsync` (content, properties, position always;
type only when it differs from the cached type). -/
inductive StoreOp where
  | delete (blockId : String)
  | create (clientId : String) (apiType : String) (content : String)
      (properties : String) (position : Int)
  | update (blockId : String) (content : String) (properties : String)
      (position : Int) (newType : Option String)
  deriving DecidableEq, Repr

/-- true exactly on delete calls. -/
def isDeleteOp : StoreOp → Bool
  | StoreOp.delete _ => true
  | _ => false

/-- the id of a delete call, `none` for create/update. -/
def deleteOpId : StoreOp → Option String
  | StoreOp.delete id => some id
  | _ => none

/-- the editor-node id a create/update call was computed from, `none` for
deletes. -/
def cuOpId : StoreOp → Option String
  | StoreOp.create cid _ _ _ _ => some cid
  | StoreOp.update id _ _ _ _ => some id
  | _ => none

/-- lines 619-625: seed the position map from the last-known server blocks
(skipping rows whose `position` is undefined).  Later `set`s shadow earlier
ones because lookup finds the front-most entry. -/
def seedPositions (serverBlocks : List ServerBlock) : List (String × Int) :=
  serverBlocks.foldl
    (fun m b => match b.position with
      | some p => (b.id, p) :: m
      | none => m) []

/-- line 628: the full id set of the editor document. -/
def editorAllIds (doc : List EditorBlock) : List String := doc.map fun b => b.id

/-- lines 630-641: a server block is deleted iff it is missing from the editor
document and its id passes `isServerGeneratedId`. -/
def blocksToDelete (serverBlocks : List ServerBlock) (doc : List EditorBlock) :
    List ServerBlock :=
  serverBlocks.filter fun sb =>
    !((editorAllIds doc).contains sb.id) && isServerGeneratedId sb.id

/-- running state of the create/update walk: calls issued so far (the delete
calls included), the evolving `existingPositions` map, and the global call
counter consulted by the success oracle. -/
structure WalkAcc where
  ops : List StoreOp
  posMap : List (String × Int)
  cnt : Nat
  deriving Repr

/-- lines 667-732, one iteration of the create/update walk: compute the
position for index `i`; nodes without confirmed server identity are created
(on success the client id is entered into the position map); confirmed nodes
are looked up in the cached server list and updated when `hasBlockChanged`
says so or the cached position drifts by more than 100; otherwise skipped.
A failed call (oracle `false`) is caught per item: the call remains issued
but the position map is not updated. -/
def processBlock (serverBlocks : List ServerBlock) (doc : List EditorBlock)
    (ok : Nat → Bool) (i : Nat) (block : EditorBlock) (acc : WalkAcc) : WalkAcc :=
  let position := calculatePosition doc i acc.posMap
  if !(isConfirmedServerBlock serverBlocks block.id) then
    let op := StoreOp.create block.id (mapBlockNoteTypeToAPI block.type)
      block.content block.props position
    let succ := ok acc.cnt
    { ops := acc.ops ++ [op]
      posMap := if succ then (block.id, position) :: acc.posMap else acc.posMap
      cnt := acc.cnt + 1 }
  else
    match serverBlocks.find? (fun b => b.id == block.id) with
    | none => acc
    | some existingBlock =>
      let hasChanged := hasBlockChanged existingBlock block
      let currentPosition := existingBlock.position.getD 0
      let needsPositionUpdate := decide (100 < (currentPosition - position).natAbs)
      if hasChanged || needsPositionUpdate then
        let newType :=
          if existingBlock.type == mapBlockNoteTypeToAPI block.type then none
          else some (mapBlockNoteTypeToAPI block.type)
        let op := StoreOp.update block.id block.content block.props position newType
        let succ := ok acc.cnt
        { ops := acc.ops ++ [op]
          posMap := if succ then (block.id, position) :: acc.posMap else acc.posMap
          cnt := acc.cnt + 1 }
      else acc

/-- the `for (let i = 0; ...)` loop of lines 667-732 over the whole document. -/
def walkBlocks (serverBlocks : List ServerBlock) (doc : List EditorBlock)
    (ok : Nat → Bool) : List EditorBlock → Nat → WalkAcc → WalkAcc
  | [], _, acc => acc
  | b :: rest, i, acc =>
    walkBlocks serverBlocks doc ok rest (i + 1)
      (processBlock serverBlocks doc ok i b acc)

/-- outcome of one guard-passing `saveChanges` call: the store calls issued in
order, the final position map, the final save status and whether `lastSaved`
was recorded. -/
structure SaveRun where
  ops : List StoreOp
  positions : List (String × Int)
  status : SaveStatus
  lastSavedRecorded : Bool
  deriving Repr

/-- the body of `saveChanges` (lines 618-741) once the in-flight guard has
been passed: seed the position map, issue the delete calls, then run the
create/update walk; the epilogue (lines 734-736) sets the status to `saved`
and records the timestamp.  The `catch` of lines 742-749 is unreachable for
store-call failures because every `mutateAsync` is wrapped in its own
per-item `try/catch` (lines 651-660, 676-689, 715-726), so the completed run
always reports `saved`. -/
def saveRun (serverBlocks : List ServerBlock) (doc : List EditorBlock)
    (ok : Nat → Bool) : SaveRun :=
  let delOps := (blocksToDelete serverBlocks doc).map fun b => StoreOp.delete b.id
  let acc := walkBlocks serverBlocks doc ok doc 0
    ⟨delOps, seedPositions serverBlocks, delOps.length⟩
  { ops := acc.ops
    positions := acc.posMap
    status := SaveStatus.saved
    lastSavedRecorded := true }

/-- lines 604-617: the guarded entry point.  When `isSavingRef.current` is set
or the editor is not ready, the call returns immediately (`none`): no store
call, no status change, nothing queued. -/
def saveChanges (isSaving : Bool) (isEditorReady : Bool)
    (serverBlocks : List ServerBlock) (doc : List EditorBlock)
    (ok : Nat → Bool) : Option SaveRun :=
  if isSaving || !isEditorReady then none
  else some (saveRun serverBlocks doc ok)

/-- number of issued calls whose oracle flag is true ("items that succeeded"). -/
def succCount (ok : Nat → Bool) (ops : List StoreOp) : Nat :=
  (ops.enum.filter fun j => ok j.1).length

/-! ### Store and cache effects (src/unnamed/part_010 lines 261-363)

`useBlocks` serves the component the store rows with `type` mapped through
`mapAPITypeToBlockNote`; `useCreateBlock.onSuccess` appends the created row,
`useUpdateBlock.onSuccess` replaces the matching row, `useDeleteBlock.onSuccess`
filters it out — so the cache stays the mapped image of the store and it
suffices to track the store and derive the cache view. -/

/-- the React-Query `blocks` cache as the component sees it: store rows with
API types mapped back to BlockNote types. -/
def cacheView (store : List ServerBlock) : List ServerBlock :=
  store.map fun b => { b with type := mapAPITypeToBlockNote b.type }

/-- effect of one successful store call on the store; `fresh` assigns the
store-generated id of the next created row (second component counts the
successful creates so far). -/
def applyOp (fresh : Nat → String) (st : List ServerBlock × Nat) :
    StoreOp → List ServerBlock × Nat
  | StoreOp.delete id => (st.1.filter fun b => !(b.id == id), st.2)
  | StoreOp.create _ t c p pos => (st.1 ++ [⟨fresh st.2, t, c, p, some pos⟩], st.2 + 1)
  | StoreOp.update id c p pos nt =>
    (st.1.map fun b =>
      if b.id == id then
        { b with
          content := c
          properties := p
          position := some pos
          type := nt.getD b.type }
      else b, st.2)

/-- effect of a whole call sequence on the store: the j-th issued call takes
effect iff the oracle granted it success. -/
def applyOps (fresh : Nat → String) (ok : Nat → Bool) (store : List ServerBlock)
    (ops : List StoreOp) : List ServerBlock :=
  (ops.enum.foldl
    (fun st jop => if ok jop.1 then applyOp fresh st jop.2 else st)
    (store, 0)).1

/-- one full reconciliation pass at the store level: run `saveChanges` on the
cache view of the store and apply the granted calls. -/
def reconcileStore (doc : List EditorBlock) (store : List ServerBlock)
    (ok : Nat → Bool) (fresh : Nat → String) : List ServerBlock :=
  applyOps fresh ok store (saveRun (cacheView store) doc ok).ops

/-- insertion of a block into a position-sorted list (ascending
`position || 0`), auxiliary to `sortByPosition`. -/
def insertByPosition (b : ServerBlock) : List ServerBlock → List ServerBlock
  | [] => [b]
  | c :: rest =>
    if b.position.getD 0 ≤ c.position.getD 0 then b :: c :: rest
    else c :: insertByPosition b rest

/-- stable sort of store rows by ascending position, the
`sort((a, b) => (a.position || 0) - (b.position || 0))` of the loader. -/
def sortByPosition : List ServerBlock → List ServerBlock
  | [] => []
  | b :: rest => insertByPosition b (sortByPosition rest)

/-! ### Component-level state (for the frame property and the in-flight guard) -/

/-- the component state `saveChanges` can touch: the live editor document, the
block store (through the mutations) and the save status.  The source body of
`saveChanges` (lines 604-765) contains no call that writes into the editor
document (`editor.updateBlock` / `insertBlocks` / `replaceBlocks` never occur
there), so the transition carries `editorDoc` through unchanged. -/
structure ComponentState where
  editorDoc : List EditorBlock
  store : List ServerBlock
  saveStatus : SaveStatus
  deriving Repr

/-- one guard-passing `saveChanges` call as a transition on the component
state. -/
def saveChangesStep (ok : Nat → Bool) (fresh : Nat → String)
    (s : ComponentState) : ComponentState :=
  let r := saveRun (cacheView s.store) s.editorDoc ok
  { editorDoc := s.editorDoc
    store := applyOps fresh ok s.store r.ops
    saveStatus := r.status }

/-- engine state for the in-flight guard: the `isSavingRef.current` flag and
the log of all store calls issued so far. -/
structure EngineState where
  inFlight : Bool
  issued : List StoreOp
  deriving DecidableEq, Repr

/-- events at the engine: a `saveChanges(doc)` invocation, or the completion
of the running invocation (its `finally`, line 750-752, clearing the flag). -/
inductive EngineEvent where
  | invoke (doc : List EditorBlock)
  | complete
  deriving Repr

/-- lines 606-616 and 750-752 as a step relation: an invocation arriving while
the flag is set is dropped (state unchanged, nothing queued); otherwise the
flag is set and the run's calls are issued; `complete` clears the flag. -/
def engineStep (serverBlocks : List ServerBlock) (ok : Nat → Bool)
    (s : EngineState) : EngineEvent → EngineState
  | EngineEvent.invoke doc =>
    match saveChanges s.inFlight true serverBlocks doc ok with
    | none => s
    | some r => { inFlight := true, issued := s.issued ++ r.ops }
  | EngineEvent.complete => { s with inFlight := false }

/-! ### Autosave scheduler timers (src/unnamed/part_001 lines 26-35, 174,
767-768, 1021-1034) -/

/-- a scheduled (not yet fired) save: the page it will write to and the
document it captured. -/
structure PendingSave where
  pageId : String
  doc : List EditorBlock
  deriving DecidableEq, Repr

/-- the two timer slots of the component: `timeout`, the private variable of
the `debounce` closure (lines 26-35), and `saveTimeoutRef` (line 174), the
ref that the keyboard-listener effect cleanup clears.  No line of the source
ever assigns `saveTimeoutRef.current`. -/
structure SchedulerState where
  debounceTimeout : Option PendingSave
  saveTimeoutRef : Option PendingSave
  deriving DecidableEq, Repr

/-- lines 29-34: a call of the debounced save clears the closure's previous
timer and arms a new one with the captured arguments. -/
def debouncedSaveCall (s : SchedulerState) (p : PendingSave) : SchedulerState :=
  { s with debounceTimeout := some p }

/-- lines 1021-1034: the effect cleanup that runs when the effect re-fires or
the editor unmounts (page navigation).  It removes the listeners and clears
`saveTimeoutRef.current` when set; the debounce closure's `timeout` is not
reachable from here. -/
def keyboardEffectCleanup (s : SchedulerState) : SchedulerState :=
  { s with saveTimeoutRef := none }

/-! ### Concrete scenarios used by the claim theorems -/

/-- success oracle granting every store call. -/
def okAll : Nat → Bool := fun _ => true

/-- success oracle failing every store call. -/
def okNone : Nat → Bool := fun _ => false

/-- store id assignment of the spec's concrete scenario: the create call
returns `{id: "srv-abc123", ...}`. -/
def freshSrv : Nat → String := fun _ => "srv-abc123"

/-- three-block editor document with numeric (store-shaped) ids, in the order
the user arranged them. -/
def c1Doc : List EditorBlock :=
  [⟨"10000000001", "paragraph", "a", ""⟩,
   ⟨"10000000002", "paragraph", "b", ""⟩,
   ⟨"10000000003", "paragraph", "c", ""⟩]

/-- the matching store rows, persisted at positions 500 < 600 < 700 (already
consistent with the editor order of `c1Doc`). -/
def c1Store : List ServerBlock :=
  [⟨"10000000001", "TEXT", "a", "", some 500⟩,
   ⟨"10000000002", "TEXT", "b", "", some 600⟩,
   ⟨"10000000003", "TEXT", "c", "", some 700⟩]

/-- the spec's concrete scenario: a single freshly typed paragraph with the
client-temporary id `temp-1`, never yet saved. -/
def c2Doc : List EditorBlock := [⟨"temp-1", "paragraph", "Hello", ""⟩]

/-- three editor nodes; in the tie scenario the outer two are resolved at the
adjacent positions 1000 and 1001 and the middle one is new. -/
def c5Blocks : List EditorBlock :=
  [⟨"pa", "paragraph", "", ""⟩, ⟨"pn", "paragraph", "", ""⟩,
   ⟨"pc", "paragraph", "", ""⟩]

/-- resolved positions 1000 and 1001 for the outer siblings of `c5Blocks`. -/
def c5TieMap : List (String × Int) := [("pa", 1000), ("pc", 1001)]

/-- resolved positions 1000 and 1010 for the outer siblings of `c5Blocks`
(gap of at least 2, as the amended claim requires). -/
def c5GapMap : List (String × Int) := [("pa", 1000), ("pc", 1010)]

/-- a debounced save captured for page A before the user navigates away. -/
def pageAPending : PendingSave := ⟨"page-A", c2Doc⟩

/-! ## Theorems -/

/-- an association-list lookup misses every key outside the key column. -/
theorem lookup_none_of_not_mem_keys {β : Type} (l : List (String × β)) (a : String)
    (h : a ∉ l.map Prod.fst) : l.lookup a = none := by
  induction l with
  | nil => rfl
  | cons p rest ih =>
    have h1 : ¬(p.1 = a) := by
      intro e
      exact h (by simp [e])
    have h2 : a ∉ rest.map Prod.fst := by
      intro e
      exact h (by simp [e])
    cases p with
    | mk k v =>
      simp only [List.lookup]
      rw [show (a == k) = false from beq_eq_false_iff_ne.mpr fun e => h1 e.symm]
      exact ih h2

/-- a non-delete call has no delete id. -/
theorem deleteOpId_none {op : StoreOp} (h : isDeleteOp op = false) :
    deleteOpId op = none := by
  cases op <;> simp_all [isDeleteOp, deleteOpId]

/-- a delete call has no create/update id. -/
theorem cuOpId_none_of_delete {op : StoreOp} (h : isDeleteOp op = true) :
    cuOpId op = none := by
  cases op <;> simp_all [isDeleteOp, cuOpId]

/-- dropping a satisfying prefix: when every element of `l₁` satisfies `p`,
`dropWhile` over `l₁ ++ l₂` reduces to `dropWhile` over `l₂`. -/
theorem dropWhile_append_all {α : Type} (p : α → Bool) (l₁ l₂ : List α)
    (h : ∀ x ∈ l₁, p x = true) :
    List.dropWhile p (l₁ ++ l₂) = List.dropWhile p l₂ := by
  induction l₁ with
  | nil => simp
  | cons a t ih =>
    have ha := h a (List.mem_cons_self a t)
    rw [List.cons_append, List.dropWhile_cons, ha]
    simpa using ih fun x hx => h x (List.mem_cons_of_mem a hx)

/-- each walk iteration appends at most one call, never a delete, and any
appended call carries the id of the node being processed. -/
theorem processBlock_shape (sb : List ServerBlock) (doc : List EditorBlock)
    (ok : Nat → Bool) (i : Nat) (b : EditorBlock) (acc : WalkAcc) :
    (processBlock sb doc ok i b acc).ops = acc.ops ∨
      ∃ op, (processBlock sb doc ok i b acc).ops = acc.ops ++ [op] ∧
        isDeleteOp op = false ∧ cuOpId op = some b.id := by
  simp only [processBlock]
  split
  · exact Or.inr ⟨_, rfl, rfl, rfl⟩
  · split
    · exact Or.inl rfl
    · split
      · exact Or.inr ⟨_, rfl, rfl, rfl⟩
      · exact Or.inl rfl

/-- the whole create/update walk: the calls it appends contain no delete, and
their node ids follow the document order (they form a sublist of the walked
slice's ids). -/
theorem walkBlocks_shape (sb : List ServerBlock) (doc : List EditorBlock)
    (ok : Nat → Bool) (rest : List EditorBlock) :
    ∀ (i : Nat) (acc : WalkAcc),
      ∃ δ, (walkBlocks sb doc ok rest i acc).ops = acc.ops ++ δ ∧
        (∀ op ∈ δ, isDeleteOp op = false) ∧
        List.Sublist (δ.filterMap cuOpId) (rest.map fun b => b.id) := by
  induction rest with
  | nil =>
    intro i acc
    exact ⟨[], by simp [walkBlocks], by simp, by simp⟩
  | cons b rest ih =>
    intro i acc
    obtain ⟨δ₂, h2, h2del, h2sub⟩ := ih (i + 1) (processBlock sb doc ok i b acc)
    rcases processBlock_shape sb doc ok i b acc with h1 | ⟨op, h1, hdel, hcu⟩
    · refine ⟨δ₂, ?_, h2del, ?_⟩
      · rw [walkBlocks, h2, h1]
      · exact h2sub.trans (List.sublist_cons_self _ _)
    · refine ⟨op :: δ₂, ?_, ?_, ?_⟩
      · rw [walkBlocks, h2, h1, List.append_assoc]
        rfl
      · intro x hx
        rcases List.mem_cons.mp hx with rfl | hx
        · exact hdel
        · exact h2del x hx
      · rw [List.filterMap_cons, hcu, List.map_cons]
        exact h2sub.cons₂ b.id

/-- decomposition of a completed save pass: the issued calls are the delete
calls of the classifier's delete set followed by the walk's create/update
calls, which contain no delete and respect document order. -/
theorem saveRun_ops_decomp (sb : List ServerBlock) (doc : List EditorBlock)
    (ok : Nat → Bool) :
    ∃ δ, (saveRun sb doc ok).ops =
        ((blocksToDelete sb doc).map fun b => StoreOp.delete b.id) ++ δ ∧
      (∀ op ∈ δ, isDeleteOp op = false) ∧
      List.Sublist (δ.filterMap cuOpId) (editorAllIds doc) := by
  obtain ⟨δ, h, hdel, hsub⟩ := walkBlocks_shape sb doc ok doc 0
    ⟨(blocksToDelete sb doc).map fun b => StoreOp.delete b.id,
      seedPositions sb, ((blocksToDelete sb doc).map fun b => StoreOp.delete b.id).length⟩
  exact ⟨δ, h, hdel, hsub⟩

/-- C3 (deletion safety, confirmed): in any guard-passing `saveChanges` pass,
the delete calls issued are exactly (and in order) the server blocks whose id
is absent from the full editor id set and passes `isServerGeneratedId`; in
particular every issued delete id is server-generated and absent from the
editor, so a node with a provisional identity (placeholder, `temp-`/`new-`
prefixed, or any id failing the predicate) never receives a delete call, even
after it disappears from the document. -/
theorem c3_deletion_safety (sb : List ServerBlock) (doc : List EditorBlock)
    (ok : Nat → Bool) :
    (saveRun sb doc ok).ops.filterMap deleteOpId =
      (blocksToDelete sb doc).map (fun b => b.id) ∧
    ((saveRun sb doc ok).ops.filterMap deleteOpId).all
      (fun id => !((editorAllIds doc).contains id) && isServerGeneratedId id) = true := by
  obtain ⟨δ, hops, hdel, _⟩ := saveRun_ops_decomp sb doc ok
  have hδ : δ.filterMap deleteOpId = [] := by
    rw [List.filterMap_eq_nil_iff]
    intro op hop
    exact deleteOpId_none (hdel op hop)
  have hmain : (saveRun sb doc ok).ops.filterMap deleteOpId =
      (blocksToDelete sb doc).map fun b => b.id := by
    rw [hops, List.filterMap_append, hδ, List.append_nil, List.filterMap_map]
    have hcomp : (deleteOpId ∘ fun b : ServerBlock => StoreOp.delete b.id) =
        some ∘ fun b : ServerBlock => b.id := rfl
    rw [hcomp, List.filterMap_eq_map]
  refine ⟨hmain, ?_⟩
  rw [hmain, List.all_eq_true]
  intro x hx
  obtain ⟨b, hb, rfl⟩ := List.mem_map.mp hx
  exact List.mem_filter.mp hb |>.2

/-- C7 (operation ordering, confirmed): within one pass every delete call
precedes every create/update call (after dropping the leading deletes no
delete remains), and the create/update calls are dispatched in editor-document
order: the node ids they carry form a sublist of the document's id sequence. -/
theorem c7_op_order (sb : List ServerBlock) (doc : List EditorBlock)
    (ok : Nat → Bool) :
    ((saveRun sb doc ok).ops.dropWhile isDeleteOp).all
      (fun op => !(isDeleteOp op)) = true ∧
    List.Sublist ((saveRun sb doc ok).ops.filterMap cuOpId) (editorAllIds doc) := by
  obtain ⟨δ, hops, hdel, hsub⟩ := saveRun_ops_decomp sb doc ok
  constructor
  · have hpre : ∀ op ∈ (blocksToDelete sb doc).map fun b => StoreOp.delete b.id,
        isDeleteOp op = true := by
      intro op hop
      obtain ⟨b, _, rfl⟩ := List.mem_map.mp hop
      rfl
    rw [hops, dropWhile_append_all isDeleteOp _ δ hpre, List.all_eq_true]
    intro op hop
    have hmem : op ∈ δ := (List.dropWhile_sublist isDeleteOp).mem hop
    simp [hdel op hmem]
  · rw [hops, List.filterMap_append]
    have hδ0 : (((blocksToDelete sb doc).map fun b => StoreOp.delete b.id).filterMap
        cuOpId) = [] := by
      rw [List.filterMap_eq_nil_iff]
      intro op hop
      obtain ⟨b, _, rfl⟩ := List.mem_map.mp hop
      rfl
    rw [hδ0, List.nil_append]
    exact hsub

/-- C4 (at-most-one reconciliation in flight, confirmed): an invocation that
arrives while `isSavingRef.current` is set returns immediately, issues no
store call and is not queued (the engine state is unchanged); consequently in
the event sequence invoke/invoke/complete only the first invocation's calls
are ever issued. -/
theorem c4_in_flight_guard (sb : List ServerBlock) (ok : Nat → Bool)
    (s : EngineState) (doc d₁ d₂ : List EditorBlock) (h : s.inFlight = true) :
    engineStep sb ok s (EngineEvent.invoke doc) = s ∧
    (([EngineEvent.invoke d₁, EngineEvent.invoke d₂,
        EngineEvent.complete]).foldl (engineStep sb ok) ⟨false, []⟩).issued =
      (saveRun sb d₁ ok).ops := by
  constructor
  · simp [engineStep, saveChanges, h]
  · simp [engineStep, saveChanges]

/-- C4 witness: concrete instance of the guard — with the flag set, invoking
on a nonempty document changes nothing; and of the three-event sequence. -/
theorem c4_in_flight_guard_witness :
    engineStep c1Store okAll ⟨true, []⟩ (EngineEvent.invoke c2Doc) = ⟨true, []⟩ ∧
    (([EngineEvent.invoke c2Doc, EngineEvent.invoke c1Doc,
        EngineEvent.complete]).foldl (engineStep c1Store okAll) ⟨false, []⟩).issued =
      (saveRun c1Store c2Doc okAll).ops :=
  ⟨(c4_in_flight_guard c1Store okAll ⟨true, []⟩ c2Doc c2Doc c1Doc rfl).1,
   (c4_in_flight_guard c1Store okAll ⟨true, []⟩ c2Doc c2Doc c1Doc rfl).2⟩

/-- C6 counterexample: a pass whose plan is non-empty (one create call) in
which zero items succeed still ends with status `saved`, not `error` — the
per-item catch handlers make the error epilogue unreachable for store-call
failures. -/
theorem c6_zero_success_counterexample :
    (saveRun (cacheView []) c2Doc okNone).ops.length = 1 ∧
    succCount okNone (saveRun (cacheView []) c2Doc okNone).ops = 0 ∧
    (saveRun (cacheView []) c2Doc okNone).status = SaveStatus.saved ∧
    ¬((saveRun (cacheView []) c2Doc okNone).status = SaveStatus.error) := by
  decide

/-- C6 as amended: when `saveChanges` completes its per-item loop it always
sets status `saved` and records the timestamp, regardless of how many items
succeeded (even zero out of a non-empty plan); the `error` status is reserved
for exceptions escaping the per-item handlers, which the modelled store calls
never produce. -/
theorem c6_status_amended (sb : List ServerBlock) (doc : List EditorBlock)
    (ok : Nat → Bool) :
    (saveRun sb doc ok).status = SaveStatus.saved ∧
    (saveRun sb doc ok).lastSavedRecorded = true :=
  ⟨rfl, rfl⟩

/-- floor midpoint of two integers at distance at least 2 lies strictly
between them. -/
theorem fdiv_two_between {p n : Int} (h : p + 2 ≤ n) :
    p < Int.fdiv (p + n) 2 ∧ Int.fdiv (p + n) 2 < n := by
  rw [Int.fdiv_eq_ediv _ (by norm_num)]
  omega

/-- C5 counterexample: for the already-resolved adjacent sibling positions
p1 = 1000 < p2 = 1001 the position computed for the node inserted between
them is `floor(2001/2) = 1000 = p1`, not strictly between them — the claim's
unconditional betweenness fails at gap 1. -/
theorem c5_tie_counterexample :
    prevResolved c5Blocks 1 c5TieMap = 1000 ∧
    nextResolved c5Blocks 1 c5TieMap = 1001 ∧
    calculatePosition c5Blocks 1 c5TieMap = 1000 ∧
    ¬(prevResolved c5Blocks 1 c5TieMap < calculatePosition c5Blocks 1 c5TieMap) := by
  decide

/-- C5 as amended: `calculatePosition` returns 1000 at index 0; at any other
index it returns `floor((prev + next) / 2)` for the backward/forward scan
results `prev` (0 when none resolved) and `next` (`prev + 2000` when none
resolved); and the computed value lies strictly between `prev` and `next`
provided they differ by at least 2 (a gap of exactly 1 collapses to `prev`). -/
theorem c5_position_allocator_amended (blocks : List EditorBlock) (i : Nat)
    (m : List (String × Int)) (hi : 0 < i)
    (hgap : prevResolved blocks i m + 2 ≤ nextResolved blocks i m) :
    calculatePosition blocks 0 m = 1000 ∧
    calculatePosition blocks i m =
      Int.fdiv (prevResolved blocks i m + nextResolved blocks i m) 2 ∧
    prevResolved blocks i m < calculatePosition blocks i m ∧
    calculatePosition blocks i m < nextResolved blocks i m := by
  have hne : i ≠ 0 := Nat.pos_iff_ne_zero.mp hi
  have hform : calculatePosition blocks i m =
      Int.fdiv (prevResolved blocks i m + nextResolved blocks i m) 2 := by
    simp [calculatePosition, hne]
  refine ⟨by simp [calculatePosition], hform, ?_, ?_⟩
  · rw [hform]
    exact (fdiv_two_between hgap).1
  · rw [hform]
    exact (fdiv_two_between hgap).2

/-- C5 witness: the amended theorem applied to the concrete scenario with
resolved neighbours 1000 and 1010: the midpoint 1005 is strictly between. -/
theorem c5_position_allocator_amended_witness :
    0 < 1 ∧
    prevResolved c5Blocks 1 c5GapMap + 2 ≤ nextResolved c5Blocks 1 c5GapMap ∧
    (calculatePosition c5Blocks 0 c5GapMap = 1000 ∧
      calculatePosition c5Blocks 1 c5GapMap =
        Int.fdiv (prevResolved c5Blocks 1 c5GapMap + nextResolved c5Blocks 1 c5GapMap) 2 ∧
      prevResolved c5Blocks 1 c5GapMap < calculatePosition c5Blocks 1 c5GapMap ∧
      calculatePosition c5Blocks 1 c5GapMap < nextResolved c5Blocks 1 c5GapMap) :=
  ⟨by decide, by decide,
    c5_position_allocator_amended c5Blocks 1 c5GapMap (by decide) (by decide)⟩

/-- C8 (type mapping totality and round trip, confirmed): both mappers are
total with defaults `TEXT` / `paragraph` outside their tables; the round trip
of every editor type is a valid editor type; every editor type that is the
canonical editor representative of its store type round-trips to itself; the
one non-canonical editor type, `audio`, round-trips to `video`. -/
theorem c8_type_mapper_roundtrip :
    (∀ s : String, s ∉ editorTypeKeys → mapBlockNoteTypeToAPI s = "TEXT") ∧
    (∀ s : String, s ∉ apiTypeKeys → mapAPITypeToBlockNote s = "paragraph") ∧
    editorTypeKeys.all
      (fun t => editorTypeKeys.contains
        (mapAPITypeToBlockNote (mapBlockNoteTypeToAPI t))) = true ∧
    editorTypeKeys.all
      (fun t => !(API_TO_BLOCKNOTE_TYPE_MAP.lookup (mapBlockNoteTypeToAPI t) ==
          some t) ||
        (mapAPITypeToBlockNote (mapBlockNoteTypeToAPI t) == t)) = true ∧
    mapAPITypeToBlockNote (mapBlockNoteTypeToAPI "audio") = "video" := by
  refine ⟨?_, ?_, by decide, by decide, by decide⟩
  · intro s hs
    unfold mapBlockNoteTypeToAPI
    rw [lookup_none_of_not_mem_keys _ _ hs]
    rfl
  · intro s hs
    unfold mapAPITypeToBlockNote
    rw [lookup_none_of_not_mem_keys _ _ hs]
    rfl

/-- C8 witness: the defaults at a concrete unknown tag. -/
theorem c8_type_mapper_roundtrip_witness :
    mapBlockNoteTypeToAPI "unknown-tag" = "TEXT" ∧
    mapAPITypeToBlockNote "UNKNOWN_TAG" = "paragraph" :=
  ⟨c8_type_mapper_roundtrip.1 "unknown-tag" (by decide),
   c8_type_mapper_roundtrip.2.1 "UNKNOWN_TAG" (by decide)⟩

/-- C1 (ordering invariant, refuted — code bug): starting from a store whose
positions 500 < 600 < 700 already agree with the editor order of `c1Doc`, one
reconciliation pass in which every store call succeeds rewrites the positions
to 1000, 850, 1850 (`hasBlockChanged` always reports a change because the
cache holds BlockNote-vocabulary types while it compares against the API
vocabulary; index 0 is forced to 1000 while the forward scan still sees the
stale seed 700), so sorting the stored blocks by ascending position yields
the order B, A, C — not the editor order A, B, C. -/
theorem c1_ordering_violation :
    (saveRun (cacheView c1Store) c1Doc okAll).ops =
      [StoreOp.update "10000000001" "a" "" 1000 (some "TEXT"),
       StoreOp.update "10000000002" "b" "" 850 (some "TEXT"),
       StoreOp.update "10000000003" "c" "" 1850 (some "TEXT")] ∧
    (sortByPosition (reconcileStore c1Doc c1Store okAll freshSrv)).map
        (fun b => b.id) =
      ["10000000002", "10000000001", "10000000003"] ∧
    editorAllIds c1Doc = ["10000000001", "10000000002", "10000000003"] ∧
    (sortByPosition (reconcileStore c1Doc c1Store okAll freshSrv)).map
        (fun b => b.id) ≠ editorAllIds c1Doc := by
  decide

/-- C2 (idempotence, refuted — code bug): the spec's own scenario. First pass
on `[{id: "temp-1", text: "Hello"}]` against an empty store issues exactly one
create (type `TEXT`, position 1000) and the store answers with id
`srv-abc123`; the second pass on the unchanged document issues one create
call again — not zero — because the store-assigned id is never written back
into the editor node, so `temp-1` still has no confirmed server identity and
is re-created (duplicating the block on every save cycle). -/
theorem c2_idempotence_violation :
    (saveRun (cacheView []) c2Doc okAll).ops =
      [StoreOp.create "temp-1" "TEXT" "Hello" "" 1000] ∧
    reconcileStore c2Doc [] okAll freshSrv =
      [⟨"srv-abc123", "TEXT", "Hello", "", some 1000⟩] ∧
    (saveRun (cacheView (reconcileStore c2Doc [] okAll freshSrv)) c2Doc okAll).ops =
      [StoreOp.create "temp-1" "TEXT" "Hello" "" 1000] ∧
    (saveRun (cacheView (reconcileStore c2Doc [] okAll freshSrv)) c2Doc
        okAll).ops.length ≠ 0 := by
  decide

/-- C9 (pending-save cancellation on navigation, refuted — code bug): a
debounced save scheduled for page A survives the keyboard-listener effect
cleanup that runs on page change: the cleanup clears only
`saveTimeoutRef.current` (which no line of the source ever assigns) while the
armed timer lives in the `debounce` closure's private `timeout` variable,
which nothing in the navigation path can reach — so the page-A save fires
after the page identity has changed. -/
theorem c9_pending_save_survives_navigation :
    (keyboardEffectCleanup
        (debouncedSaveCall ⟨none, none⟩ pageAPending)).debounceTimeout =
      some pageAPending ∧
    (keyboardEffectCleanup
        (debouncedSaveCall ⟨none, none⟩ pageAPending)).debounceTimeout ≠ none ∧
    pageAPending.pageId = "page-A" := by
  decide

/-- a single store-call effect introduces no id other than the pre-existing
row ids and the fresh ids the store assigns to created rows. -/
theorem applyOp_id_mem (fresh : Nat → String) (st : List ServerBlock × Nat)
    (op : StoreOp) (x : String)
    (hx : x ∈ (applyOp fresh st op).1.map fun b => b.id) :
    x ∈ st.1.map (fun b => b.id) ∨ ∃ k, x = fresh k := by
  cases op with
  | delete id =>
    left
    simp only [applyOp, List.mem_map] at hx ⊢
    obtain ⟨b, hb, rfl⟩ := hx
    exact ⟨b, (List.mem_filter.mp hb).1, rfl⟩
  | create cid t c p pos =>
    simp only [applyOp, List.map_append, List.mem_append, List.mem_map] at hx
    rcases hx with h | h
    · left
      rw [List.mem_map]
      exact h
    · right
      obtain ⟨b, hb, rfl⟩ := h
      rcases List.mem_singleton.mp hb with rfl
      exact ⟨st.2, rfl⟩
  | update id c p pos nt =>
    left
    simp only [applyOp, List.map_map, List.mem_map, Function.comp] at hx
    obtain ⟨b0, hb0, hbid⟩ := hx
    rw [List.mem_map]
    refine ⟨b0, hb0, ?_⟩
    rw [← hbid]
    by_cases hid : (b0.id == id) = true
    · simp [hid]
    · simp [hid]

/-- iterating store-call effects over a whole granted call sequence likewise
introduces only pre-existing ids or store-assigned fresh ids. -/
theorem applyOps_fold_id_mem (fresh : Nat → String) (ok : Nat → Bool) :
    ∀ (l : List (Nat × StoreOp)) (st : List ServerBlock × Nat) (x : String),
      x ∈ (l.foldl
          (fun st jop => if ok jop.1 then applyOp fresh st jop.2 else st)
          st).1.map (fun b => b.id) →
      x ∈ st.1.map (fun b => b.id) ∨ ∃ k, x = fresh k := by
  intro l
  induction l with
  | nil =>
    intro st x hx
    exact Or.inl hx
  | cons jop rest ih =>
    intro st x hx
    rw [List.foldl_cons] at hx
    rcases ih _ x hx with h | h
    · by_cases hok : ok jop.1 = true
      · rw [if_pos hok] at h
        exact applyOp_id_mem fresh st jop.2 x h
      · rw [if_neg hok] at h
        exact Or.inl h
    · exact Or.inr h

/-- C10 (frame property of saving, confirmed): a `saveChanges` pass leaves the
editor document exactly as it was — in particular the store-assigned id of a
created row is never written back into the corresponding editor node: any
store row whose id was not already present before the pass carries a fresh
store-assigned id, and (assuming the store assigns ids distinct from every
editor-node id) that id does not occur in the editor document after the pass. -/
theorem c10_editor_frame (ok : Nat → Bool) (fresh : Nat → String)
    (s : ComponentState) (hfresh : ∀ k, fresh k ∉ editorAllIds s.editorDoc) :
    (saveChangesStep ok fresh s).editorDoc = s.editorDoc ∧
    ∀ b ∈ (saveChangesStep ok fresh s).store,
      b.id ∉ s.store.map (fun x => x.id) →
      b.id ∉ editorAllIds (saveChangesStep ok fresh s).editorDoc := by
  refine ⟨rfl, ?_⟩
  intro b hb hnew hmem
  have hx : b.id ∈ (saveChangesStep ok fresh s).store.map fun c => c.id :=
    List.mem_map_of_mem _ hb
  rcases applyOps_fold_id_mem fresh ok
      ((saveRun (cacheView s.store) s.editorDoc ok).ops.enum) (s.store, 0) b.id hx
    with h | ⟨k, hk⟩
  · exact hnew h
  · exact hfresh k (hk ▸ hmem)

/-- the store-assigned id of the spec scenario is no editor-node id. -/
theorem srv_id_not_in_c2Doc : ("srv-abc123" : String) ∉ editorAllIds c2Doc := by
  decide

/-- C10 witness: the spec scenario — after creating the `temp-1` paragraph,
the editor document is unchanged and the store-assigned id `srv-abc123` does
not occur in it. -/
theorem c10_editor_frame_witness :
    (saveChangesStep okAll freshSrv ⟨c2Doc, [], SaveStatus.idle⟩).editorDoc = c2Doc ∧
    ("srv-abc123" : String) ∉
      editorAllIds (saveChangesStep okAll freshSrv
        ⟨c2Doc, [], SaveStatus.idle⟩).editorDoc :=
  ⟨(c10_editor_frame okAll freshSrv ⟨c2Doc, [], SaveStatus.idle⟩
      (fun _ => srv_id_not_in_c2Doc)).1,
   (c10_editor_frame okAll freshSrv ⟨c2Doc, [], SaveStatus.idle⟩
      (fun _ => srv_id_not_in_c2Doc)).2
    ⟨"srv-abc123", "TEXT", "Hello", "", some 1000⟩ (by decide) (by decide)⟩

end BlockSync
